import Mathlib

/-!
Verification of the Petalbyte backup orchestrator.

A shallow embedding of the Python backend (backend/app/core/backup_engine.py,
cleanup.py, snapshot.py, verification.py, api/backup.py) as executable Lean
functions, followed by theorems about them.  External effects (subprocess exit
codes, file sizes, remote stat results, database commit success) are inputs to
the model; control flow and data flow are translated from the source.
-/

namespace Petalbyte

/-- models.BackupType -/
inductive BackupType where
  | full
  | incremental
deriving DecidableEq, Repr

/-- models.BackupStatus; the source value "partial" is modelled by `part`. -/
inductive BackupStatus where
  | pending
  | running
  | success
  | failed
  | part
  | cancelled
deriving DecidableEq, Repr

/-- database.SentSnapshot row: one sent-ledger entry. -/
structure SentSnapshot where
  snapshotPath : String
  remotePath : String
  sentAt : Int
  sizeBytes : Nat
  backupType : BackupType
  parentSnapshot : Option String
deriving DecidableEq, Repr

/-- Environment of one per-subvolume backup attempt: the snapshot being sent
plus the outcomes of the external effects the code performs
(pipeline subprocess, transfer subprocess, remote stat, ledger commit). -/
structure SubvolEnv where
  subvolume : String
  snapshotPath : String
  basePath : String
  clientName : String
  monthStr : String
  dateStr : String
  sentAtTime : Int
  dirEntries : List String
  sentPaths : List String
  pipelineOk : Bool
  fileSize : Nat
  transferOk : Bool
  remoteExists : Bool
  remoteSize : Nat
  ledgerWriteOk : Bool
deriving DecidableEq, Repr

/-- pat is an initial segment of l (character lists), by structural
recursion so that concrete instances evaluate. -/
def charsLead : List Char → List Char → Bool
  | [], _ => true
  | _ :: _, [] => false
  | p :: ps, c :: cs => (p == c) && charsLead ps cs

/-- s starts with pat. -/
def strStarts (s pat : String) : Bool := charsLead pat.toList s.toList

/-- s ends with pat. -/
def strEnds (s pat : String) : Bool :=
  charsLead pat.toList.reverse s.toList.reverse

/-- Remote path built by _perform_full_backup. -/
def fullRemoteFile (e : SubvolEnv) : String :=
  e.basePath ++ "/" ++ e.clientName ++ "/" ++ e.monthStr ++ "/full/" ++
    e.subvolume ++ "_" ++ e.dateStr ++ "_full.btrfs.gpg"

/-- Remote path built by _perform_incremental_backup. -/
def incrementalRemoteFile (e : SubvolEnv) : String :=
  e.basePath ++ "/" ++ e.clientName ++ "/" ++ e.monthStr ++ "/incremental/" ++
    e.subvolume ++ "_" ++ e.dateStr ++ "_incremental.btrfs.gpg"

/-- verification.verify_remote_file: matches = exists and size equality. -/
def verifyRemoteFile (remoteExists : Bool) (actualSize expectedSize : Nat) : Bool :=
  remoteExists && (actualSize == expectedSize)

/-- Result dictionary of _send_snapshot / _send_incremental_snapshot. -/
structure SendResult where
  success : Bool
  size : Option Nat
  verified : Option Bool
deriving DecidableEq, Repr

/-- _send_snapshot (and _send_incremental_snapshot, whose control flow is
identical): pipeline failure raises; transfer failure returns success false
without a size; otherwise success is the post-transfer size verification. -/
def sendSnapshot (e : SubvolEnv) : Except String SendResult :=
  if e.pipelineOk = false then
    Except.error "Backup pipeline failed"
  else if e.transferOk = false then
    Except.ok { success := false, size := none, verified := none }
  else
    let m := verifyRemoteFile e.remoteExists e.remoteSize e.fileSize
    Except.ok { success := m, size := some e.fileSize, verified := some m }

/-- _record_sent_snapshot: a failed commit raises; a successful commit
durably adds exactly one row. -/
def recordSentSnapshot (e : SubvolEnv) (remotePath : String) (size : Nat)
    (bt : BackupType) (parent : Option String) : Except String SentSnapshot :=
  if e.ledgerWriteOk then
    Except.ok { snapshotPath := e.snapshotPath, remotePath := remotePath,
                sentAt := e.sentAtTime, sizeBytes := size, backupType := bt,
                parentSnapshot := parent }
  else
    Except.error "ledger write failed"

/-- Per-subvolume result dictionary returned by _backup_snapshot.
backupType is none on the exception path (the except handler builds a
dictionary without a backup_type key). -/
structure SubvolResult where
  success : Bool
  backupType : Option BackupType
  remotePath : Option String
  parent : Option String
  size : Option Nat
  errorMsg : Option String
  subvolume : String
deriving DecidableEq, Repr

/-- _perform_full_backup: send, then record the ledger row only on success.
The pair's second component is the list of ledger rows written. -/
def performFullBackup (e : SubvolEnv) :
    Except String (SubvolResult × List SentSnapshot) :=
  let remoteFile := fullRemoteFile e
  match sendSnapshot e with
  | Except.error msg => Except.error msg
  | Except.ok s =>
    if s.success then
      match recordSentSnapshot e remoteFile (s.size.getD 0) BackupType.full none with
      | Except.error msg => Except.error msg
      | Except.ok row =>
        Except.ok ({ success := true, backupType := some BackupType.full,
                     remotePath := some remoteFile, parent := none,
                     size := s.size, errorMsg := none,
                     subvolume := e.subvolume }, [row])
    else
      Except.ok ({ success := false, backupType := some BackupType.full,
                   remotePath := some remoteFile, parent := none,
                   size := s.size, errorMsg := none,
                   subvolume := e.subvolume }, [])

/-- _perform_incremental_backup: identical control flow with the parent
recorded in the row and in the result dictionary. -/
def performIncrementalBackup (e : SubvolEnv) (parentPath : String) :
    Except String (SubvolResult × List SentSnapshot) :=
  let remoteFile := incrementalRemoteFile e
  match sendSnapshot e with
  | Except.error msg => Except.error msg
  | Except.ok s =>
    if s.success then
      match recordSentSnapshot e remoteFile (s.size.getD 0) BackupType.incremental
          (some parentPath) with
      | Except.error msg => Except.error msg
      | Except.ok row =>
        Except.ok ({ success := true, backupType := some BackupType.incremental,
                     remotePath := some remoteFile, parent := some parentPath,
                     size := s.size, errorMsg := none,
                     subvolume := e.subvolume }, [row])
    else
      Except.ok ({ success := false, backupType := some BackupType.incremental,
                   remotePath := some remoteFile, parent := some parentPath,
                   size := s.size, errorMsg := none,
                   subvolume := e.subvolume }, [])

/-- Insert into a list kept in descending order (snapshot.find_parent_snapshot
sorts names newest first). -/
def insertDesc (x : String) : List String → List String
  | [] => [x]
  | y :: ys => if y ≤ x then x :: y :: ys else y :: insertDesc x ys

/-- Sort names in descending lexicographic order. -/
def sortDesc (l : List String) : List String := l.foldr insertDesc []

/-- snapshot.find_parent_snapshot: newest name with the subvolume's prefix
that appears in the sent-ledger. -/
def findParentSnapshot (entries : List String) (subvolume : String)
    (sent : List String) : Option String :=
  let snaps := entries.filter (fun n => strStarts n (subvolume ++ "_"))
  (sortDesc snaps).find? (fun s => sent.contains s)

/-- _is_snapshot_sent: membership in the sent-ledger by snapshot path. -/
def isSnapshotSent (sent : List String) (p : String) : Bool := sent.contains p

/-- _backup_snapshot: full goes straight to the full path; incremental looks
up a sent parent and falls back to full when none is found; every exception
from the inner calls is caught and turned into a failure dictionary. -/
def backupSnapshot (bt : BackupType) (e : SubvolEnv) :
    SubvolResult × List SentSnapshot :=
  let attempt : Except String (SubvolResult × List SentSnapshot) :=
    match bt with
    | BackupType.full => performFullBackup e
    | BackupType.incremental =>
      match findParentSnapshot e.dirEntries e.subvolume e.sentPaths with
      | some parent =>
        if isSnapshotSent e.sentPaths parent then
          performIncrementalBackup e parent
        else
          performFullBackup e
      | none => performFullBackup e
  match attempt with
  | Except.ok r => r
  | Except.error msg =>
    ({ success := false, backupType := none, remotePath := none,
       parent := none, size := none, errorMsg := some msg,
       subvolume := e.subvolume }, [])

/-- _determine_backup_type. -/
def determineBackupType (forceFull : Bool) (dayOfMonth : Nat)
    (sentCount : Nat) : BackupType :=
  if forceFull || dayOfMonth == 1 then BackupType.full
  else if sentCount > 0 then BackupType.incremental
  else BackupType.full

/-- perform_backup lines 83-85: an explicit backup_type argument bypasses
_determine_backup_type. -/
def runBackupType (explicitType : Option BackupType) (forceFull : Bool)
    (dayOfMonth sentCount : Nat) : BackupType :=
  match explicitType with
  | some t => t
  | none => determineBackupType forceFull dayOfMonth sentCount

/-- Final-status aggregation (perform_backup lines 143-148). -/
def aggregate (results : List SubvolResult) : BackupStatus :=
  if results.all (fun r => r.success) then BackupStatus.success
  else if results.any (fun r => r.success) then BackupStatus.part
  else BackupStatus.failed

/-- Environment of one run of perform_backup.  The cancel stream gives the
value of the cooperative cancel flag at the n-th executed boundary check
(0 = after orphan cleanup, 1 = after snapshot creation, 2 + i = before
subvolume i). -/
structure RunEnv where
  cancel : Nat → Bool
  explicitType : Option BackupType
  forceFull : Bool
  dayOfMonth : Nat
  sentCount : Nat
  snapshotsOk : Bool
  subvols : List SubvolEnv

/-- Outcome of one run: what perform_backup leaves in its BackupResult plus
the ledger rows durably written during the run. -/
structure RunOutcome where
  status : BackupStatus
  backupType : BackupType
  errorMessage : Option String
  subvolumeResults : List SubvolResult
  ledgerRows : List SentSnapshot
deriving Repr

/-- Message of the exception raised when the cancel flag is observed. -/
def cancelMsg : String := "Backup cancelled by user"

/-- The per-subvolume loop of perform_backup (step 5).  The first component
is none when the cancel check fired (the raised exception discards the
collected result dictionaries); the second component collects the ledger rows
written before that point, which persist in the database. -/
def runSubvols (cancel : Nat → Bool) (bt : BackupType) :
    Nat → List SubvolEnv → Option (List SubvolResult) × List SentSnapshot
  | _, [] => (some [], [])
  | i, e :: rest =>
    if cancel (2 + i) then (none, [])
    else
      let r := backupSnapshot bt e
      let restRun := runSubvols cancel bt (i + 1) rest
      (Option.map (fun l => r.1 :: l) restRun.1, r.2 ++ restRun.2)

/-- perform_backup: orphan cleanup (internally caught), cancel check, kind
decision, snapshot creation, cancel check, per-subvolume loop with cancel
checks, final aggregation.  Any raised exception lands in the generic except
handler, which records status failed with the exception text. -/
def performBackup (env : RunEnv) : RunOutcome :=
  if env.cancel 0 then
    { status := BackupStatus.failed, backupType := BackupType.full,
      errorMessage := some cancelMsg, subvolumeResults := [], ledgerRows := [] }
  else
    let bt := runBackupType env.explicitType env.forceFull env.dayOfMonth env.sentCount
    if env.snapshotsOk = false then
      { status := BackupStatus.failed, backupType := bt,
        errorMessage := some "Failed to create snapshot",
        subvolumeResults := [], ledgerRows := [] }
    else if env.cancel 1 then
      { status := BackupStatus.failed, backupType := bt,
        errorMessage := some cancelMsg, subvolumeResults := [], ledgerRows := [] }
    else
      match runSubvols env.cancel bt 0 env.subvols with
      | (none, rows) =>
        { status := BackupStatus.failed, backupType := bt,
          errorMessage := some cancelMsg, subvolumeResults := [],
          ledgerRows := rows }
      | (some results, rows) =>
        { status := aggregate results, backupType := bt,
          errorMessage := none, subvolumeResults := results,
          ledgerRows := rows }

/-- Bounded existential on Bool streams, used to say that some boundary check
below an index observes the flag set. -/
def anyBelow (n : Nat) (f : Nat → Bool) : Bool :=
  match n with
  | 0 => false
  | k + 1 => anyBelow k f || f k

/-- The run observes the cancel flag set at a state boundary it reaches:
after cleanup, after snapshot creation, or before some subvolume. -/
def cancelObserved (env : RunEnv) : Bool :=
  env.cancel 0 ||
    (env.snapshotsOk &&
      (env.cancel 1 || anyBelow env.subvols.length (fun j => env.cancel (2 + j))))

/-- One remote artifact as seen by cleanup_failed_uploads: its path, whether
the remote stat succeeded, and its modification time (epoch seconds). -/
structure RemoteFile where
  path : String
  statOk : Bool
  mtime : Int
deriving DecidableEq, Repr

/-- cleanup.cleanup_failed_uploads: of the remote files whose path is not in
the sent-ledger, delete those whose stat succeeded and whose age exceeds one
hour.  Returns the files on which deletion is performed. -/
def cleanupFailedUploads (now : Int) (sentPaths : List String)
    (remoteFiles : List RemoteFile) : List RemoteFile :=
  let orphaned := remoteFiles.filter (fun f => !(sentPaths.contains f.path))
  orphaned.filter (fun f => f.statOk && decide (now - f.mtime > 3600))

/-- One local snapshot directory entry as seen by cleanup_old_snapshots. -/
structure LocalSnapshot where
  name : String
  ctime : Int
deriving DecidableEq, Repr

/-- Number of occurrences of a character in a string (entry.name.count). -/
def countChar (c : Char) (s : String) : Nat :=
  (s.toList.filter (fun x => x == c)).length

/-- snapshot.cleanup_old_snapshots: an entry with at least two underscores in
its name and older than the cutoff is deleted when the ledger records it as
sent, and otherwise only when older than double the cutoff.  Returns the
entries on which deletion is performed. -/
def cleanupOldSnapshots (now : Int) (days : Nat) (sentPaths : List String)
    (entries : List LocalSnapshot) : List LocalSnapshot :=
  let cutoff : Int := now - (days : Int) * 86400
  let doubleCutoff : Int := now - (days : Int) * 2 * 86400
  entries.filter (fun e =>
    decide (2 ≤ countChar '_' e.name) &&
    decide (e.ctime < cutoff) &&
    (sentPaths.contains e.name || decide (e.ctime < doubleCutoff)))

/-- Subvolume part of a snapshot entry name (parts[0] of the underscore
split). -/
def subvolOf (n : String) : String := (n.splitOn "_").headD ""

/-- A remote artifact as seen by cleanup_old_incremental_backups: directory,
file name, and age in whole days (the unit of find -mtime). -/
structure RemoteArtifact where
  dir : String
  name : String
  ageDays : Nat
deriving DecidableEq, Repr

/-- cleanup.cleanup_old_incremental_backups: find deletes *.btrfs.gpg under
the current month's incremental directory older than daily_incremental_days;
the database delete removes every incremental row with sent_at before the
cutoff.  Returns the deleted artifacts and the remaining ledger. -/
def cleanupOldIncrementalBackups (basePath clientName currentMonth : String)
    (days : Nat) (now : Int) (remoteFiles : List RemoteArtifact)
    (ledger : List SentSnapshot) : List RemoteArtifact × List SentSnapshot :=
  let incrementalPath :=
    basePath ++ "/" ++ clientName ++ "/" ++ currentMonth ++ "/incremental"
  let deleted := remoteFiles.filter (fun f =>
    f.dir == incrementalPath && strEnds f.name ".btrfs.gpg" &&
      decide (f.ageDays > days))
  let cutoff : Int := now - (days : Int) * 86400
  let remaining := ledger.filter (fun r =>
    !(r.backupType == BackupType.incremental && decide (r.sentAt < cutoff)))
  (deleted, remaining)

/-- Loop body of cleanup_old_monthly_backups for one pruned month: first the
ledger rows under the month directory are deleted and committed, then the
remote rm -rf is attempted; the rm result only affects the reported list of
deleted months, never the ledger. -/
def monthlyStep (base : String) (rmOk : String → Bool)
    (acc : List SentSnapshot × List String) (m : String) :
    List SentSnapshot × List String :=
  let monthPath := base ++ "/" ++ m
  let pruned := acc.1.filter (fun r => !(strStarts r.remotePath monthPath))
  (pruned, if rmOk m then acc.2 ++ [m] else acc.2)

/-- cleanup.cleanup_old_monthly_backups: months beyond months_to_keep in the
given (newest-first) listing are pruned one by one with monthlyStep.
The LIKE pattern has a constant pattern head and is modelled as strStarts. -/
def cleanupOldMonthlyBackups (basePath clientName : String) (monthsToKeep : Nat)
    (months : List String) (rmOk : String → Bool) (ledger : List SentSnapshot) :
    List SentSnapshot × List String :=
  let base := basePath ++ "/" ++ clientName
  if months.length > monthsToKeep then
    (months.drop monthsToKeep).foldl (monthlyStep base rmOk) (ledger, [])
  else (ledger, [])

/-- models.BackupProgress, as stored in the current_backup slot. -/
structure BackupProgressM where
  currentStep : String
  totalSteps : Nat
  currentStepNum : Nat
  percentage : Nat
deriving DecidableEq, Repr

/-- Name of the background task scheduled by the start handler. -/
def runBackupTaskName : String := "run_backup"

/-- Response of api.backup.start_backup. -/
structure StartBackupResponse where
  httpStatus : Nat
  scheduledTasks : List String
  responseStatus : Option BackupStatus
deriving DecidableEq, Repr

/-- api.backup.start_backup: when the current_backup slot is occupied the
request fails with HTTP 409 and schedules nothing; otherwise the run is
scheduled as a background task and the handler answers 200 pending. -/
def startBackup (currentBackup : Option BackupProgressM) : StartBackupResponse :=
  match currentBackup with
  | some _ =>
    { httpStatus := 409, scheduledTasks := [], responseStatus := none }
  | none =>
    { httpStatus := 200, scheduledTasks := [runBackupTaskName],
      responseStatus := some BackupStatus.pending }

/-! Concrete environments used by witnesses and counterexamples. -/

/-- A subvolume backup in which every external effect succeeds. -/
def okEnv : SubvolEnv :=
  { subvolume := "@", snapshotPath := "/snap/@_20250101_020000",
    basePath := "/mnt/backups", clientName := "host", monthStr := "202501",
    dateStr := "20250101", sentAtTime := 1000, dirEntries := [], sentPaths := [],
    pipelineOk := true, fileSize := 100, transferOk := true, remoteExists := true,
    remoteSize := 100, ledgerWriteOk := true }

/-- As okEnv but the sent-ledger commit fails. -/
def ledgerFailEnv : SubvolEnv :=
  { okEnv with subvolume := "@home",
               snapshotPath := "/snap/@home_20250101_020000",
               ledgerWriteOk := false }

/-- As okEnv but the remote size read back does not match. -/
def mismatchEnv : SubvolEnv := { okEnv with remoteSize := 99 }

/-- As okEnv but the transfer subprocess fails. -/
def transferFailEnv : SubvolEnv :=
  { okEnv with subvolume := "@home",
               snapshotPath := "/snap/@home_20250101_020000",
               transferOk := false }

/-- A run whose cancel flag is set from the start. -/
def envC1 : RunEnv :=
  { cancel := fun _ => true, explicitType := none, forceFull := false,
    dayOfMonth := 15, sentCount := 0, snapshotsOk := true,
    subvols := [okEnv, ledgerFailEnv] }

/-- A run in which the first subvolume succeeds and the second subvolume's
ledger write fails. -/
def envC2 : RunEnv := { envC1 with cancel := fun _ => false }

/-- A run whose caller passed an explicit incremental backup_type while also
forcing full, on day 1, with an empty sent-ledger. -/
def envC5 : RunEnv :=
  { cancel := fun _ => false, explicitType := some BackupType.incremental,
    forceFull := true, dayOfMonth := 1, sentCount := 0, snapshotsOk := true,
    subvols := [] }

/-- A run in which the first subvolume fails in transfer and the second
succeeds. -/
def envC6 : RunEnv :=
  { cancel := fun _ => false, explicitType := none, forceFull := false,
    dayOfMonth := 15, sentCount := 0, snapshotsOk := true,
    subvols := [transferFailEnv, okEnv] }

/-! Characterization lemmas for the per-subvolume pipeline. -/

lemma verifyRemoteFile_eq_false (e : SubvolEnv)
    (h : e.remoteExists = false ∨ ¬ e.remoteSize = e.fileSize) :
    verifyRemoteFile e.remoteExists e.remoteSize e.fileSize = false := by
  rcases h with h | h
  · simp [verifyRemoteFile, h]
  · simp [verifyRemoteFile, h]

lemma performFullBackup_cases (e : SubvolEnv) :
    performFullBackup e = Except.error "Backup pipeline failed" ∨
    performFullBackup e = Except.error "ledger write failed" ∨
    (∃ r, performFullBackup e = Except.ok (r, []) ∧ r.success = false) ∨
    (∃ r row, performFullBackup e = Except.ok (r, [row]) ∧ r.success = true ∧
      verifyRemoteFile e.remoteExists e.remoteSize e.fileSize = true ∧
      e.ledgerWriteOk = true ∧
      row.snapshotPath = e.snapshotPath ∧ row.backupType = BackupType.full ∧
      row.parentSnapshot = none) := by
  by_cases hp : e.pipelineOk
  · by_cases ht : e.transferOk
    · cases hv : verifyRemoteFile e.remoteExists e.remoteSize e.fileSize
      · have h : performFullBackup e =
            Except.ok ({ success := false, backupType := some BackupType.full,
                         remotePath := some (fullRemoteFile e), parent := none,
                         size := some e.fileSize, errorMsg := none,
                         subvolume := e.subvolume }, []) := by
          simp [performFullBackup, sendSnapshot, hp, ht, hv]
        exact Or.inr (Or.inr (Or.inl ⟨_, h, rfl⟩))
      · by_cases hl : e.ledgerWriteOk
        · have h : performFullBackup e =
              Except.ok ({ success := true, backupType := some BackupType.full,
                           remotePath := some (fullRemoteFile e), parent := none,
                           size := some e.fileSize, errorMsg := none,
                           subvolume := e.subvolume },
                [{ snapshotPath := e.snapshotPath,
                   remotePath := fullRemoteFile e, sentAt := e.sentAtTime,
                   sizeBytes := e.fileSize, backupType := BackupType.full,
                   parentSnapshot := none }]) := by
            simp [performFullBackup, sendSnapshot, recordSentSnapshot,
              hp, ht, hv, hl]
          exact Or.inr (Or.inr (Or.inr ⟨_, _, h, rfl, rfl, hl, rfl, rfl, rfl⟩))
        · refine Or.inr (Or.inl ?_)
          simp [performFullBackup, sendSnapshot, recordSentSnapshot,
            hp, ht, hv, hl]
    · have h : performFullBackup e =
          Except.ok ({ success := false, backupType := some BackupType.full,
                       remotePath := some (fullRemoteFile e), parent := none,
                       size := none, errorMsg := none,
                       subvolume := e.subvolume }, []) := by
        simp [performFullBackup, sendSnapshot, hp, ht]
      exact Or.inr (Or.inr (Or.inl ⟨_, h, rfl⟩))
  · exact Or.inl (by simp [performFullBackup, sendSnapshot, hp])

lemma performIncrementalBackup_cases (e : SubvolEnv) (p : String) :
    performIncrementalBackup e p = Except.error "Backup pipeline failed" ∨
    performIncrementalBackup e p = Except.error "ledger write failed" ∨
    (∃ r, performIncrementalBackup e p = Except.ok (r, []) ∧ r.success = false) ∨
    (∃ r row, performIncrementalBackup e p = Except.ok (r, [row]) ∧
      r.success = true ∧
      verifyRemoteFile e.remoteExists e.remoteSize e.fileSize = true ∧
      e.ledgerWriteOk = true ∧
      row.snapshotPath = e.snapshotPath ∧
      row.backupType = BackupType.incremental ∧
      row.parentSnapshot = some p) := by
  by_cases hp : e.pipelineOk
  · by_cases ht : e.transferOk
    · cases hv : verifyRemoteFile e.remoteExists e.remoteSize e.fileSize
      · have h : performIncrementalBackup e p =
            Except.ok ({ success := false,
                         backupType := some BackupType.incremental,
                         remotePath := some (incrementalRemoteFile e),
                         parent := some p, size := some e.fileSize,
                         errorMsg := none, subvolume := e.subvolume }, []) := by
          simp [performIncrementalBackup, sendSnapshot, hp, ht, hv]
        exact Or.inr (Or.inr (Or.inl ⟨_, h, rfl⟩))
      · by_cases hl : e.ledgerWriteOk
        · have h : performIncrementalBackup e p =
              Except.ok ({ success := true,
                           backupType := some BackupType.incremental,
                           remotePath := some (incrementalRemoteFile e),
                           parent := some p, size := some e.fileSize,
                           errorMsg := none, subvolume := e.subvolume },
                [{ snapshotPath := e.snapshotPath,
                   remotePath := incrementalRemoteFile e,
                   sentAt := e.sentAtTime, sizeBytes := e.fileSize,
                   backupType := BackupType.incremental,
                   parentSnapshot := some p }]) := by
            simp [performIncrementalBackup, sendSnapshot, recordSentSnapshot,
              hp, ht, hv, hl]
          exact Or.inr (Or.inr (Or.inr ⟨_, _, h, rfl, rfl, hl, rfl, rfl, rfl⟩))
        · refine Or.inr (Or.inl ?_)
          simp [performIncrementalBackup, sendSnapshot, recordSentSnapshot,
            hp, ht, hv, hl]
    · have h : performIncrementalBackup e p =
          Except.ok ({ success := false,
                       backupType := some BackupType.incremental,
                       remotePath := some (incrementalRemoteFile e),
                       parent := some p, size := none, errorMsg := none,
                       subvolume := e.subvolume }, []) := by
        simp [performIncrementalBackup, sendSnapshot, hp, ht]
      exact Or.inr (Or.inr (Or.inl ⟨_, h, rfl⟩))
  · exact Or.inl (by simp [performIncrementalBackup, sendSnapshot, hp])

/-- The attempt inside _backup_snapshot is always one of the two helpers. -/
lemma backupSnapshot_eq_attempt (bt : BackupType) (e : SubvolEnv) :
    (∃ x, (x = performFullBackup e ∨ ∃ p, x = performIncrementalBackup e p) ∧
      backupSnapshot bt e =
        (match x with
         | Except.ok r => r
         | Except.error msg =>
           ({ success := false, backupType := none, remotePath := none,
              parent := none, size := none, errorMsg := some msg,
              subvolume := e.subvolume }, []))) := by
  cases bt with
  | full => exact ⟨performFullBackup e, Or.inl rfl, rfl⟩
  | incremental =>
    cases hf : findParentSnapshot e.dirEntries e.subvolume e.sentPaths with
    | none =>
      refine ⟨performFullBackup e, Or.inl rfl, ?_⟩
      simp [backupSnapshot, hf]
    | some p =>
      by_cases hs : isSnapshotSent e.sentPaths p
      · refine ⟨performIncrementalBackup e p, Or.inr ⟨p, rfl⟩, ?_⟩
        simp [backupSnapshot, hf, hs]
      · refine ⟨performFullBackup e, Or.inl rfl, ?_⟩
        simp [backupSnapshot, hf, hs]

/-- Every failure result of the attempt wrapper carries no ledger rows, and a
success result's rows are exactly one row for the snapshot. -/
lemma backupSnapshot_rows (bt : BackupType) (e : SubvolEnv) :
    ((backupSnapshot bt e).1.success = false → (backupSnapshot bt e).2 = []) ∧
    ((backupSnapshot bt e).1.success = true →
      ∃ row, (backupSnapshot bt e).2 = [row] ∧
        row.snapshotPath = e.snapshotPath) := by
  obtain ⟨x, hx, hb⟩ := backupSnapshot_eq_attempt bt e
  have hcases :
      x = Except.error "Backup pipeline failed" ∨
      x = Except.error "ledger write failed" ∨
      (∃ r, x = Except.ok (r, []) ∧ r.success = false) ∨
      (∃ r row, x = Except.ok (r, [row]) ∧ r.success = true ∧
        row.snapshotPath = e.snapshotPath) := by
    rcases hx with hx | ⟨p, hx⟩
    · subst hx
      rcases performFullBackup_cases e with h | h | ⟨r, h, hr⟩ |
        ⟨r, row, h, hr, _, _, hrow, _, _⟩
      · exact Or.inl h
      · exact Or.inr (Or.inl h)
      · exact Or.inr (Or.inr (Or.inl ⟨r, h, hr⟩))
      · exact Or.inr (Or.inr (Or.inr ⟨r, row, h, hr, hrow⟩))
    · subst hx
      rcases performIncrementalBackup_cases e p with h | h | ⟨r, h, hr⟩ |
        ⟨r, row, h, hr, _, _, hrow, _, _⟩
      · exact Or.inl h
      · exact Or.inr (Or.inl h)
      · exact Or.inr (Or.inr (Or.inl ⟨r, h, hr⟩))
      · exact Or.inr (Or.inr (Or.inr ⟨r, row, h, hr, hrow⟩))
  rcases hcases with h | h | ⟨r, h, hr⟩ | ⟨r, row, h, hr, hrow⟩ <;>
    subst h <;> rw [hb] <;> constructor <;> intro hs
  · rfl
  · simp at hs
  · rfl
  · simp at hs
  · rfl
  · rw [hr] at hs; cases hs
  · rw [hs] at hr; cases hr
  · exact ⟨row, rfl, hrow⟩

/-- A verification mismatch (or any earlier failure) prevents success. -/
lemma backupSnapshot_mismatch (bt : BackupType) (e : SubvolEnv)
    (h : verifyRemoteFile e.remoteExists e.remoteSize e.fileSize = false) :
    (backupSnapshot bt e).1.success = false := by
  obtain ⟨x, hx, hb⟩ := backupSnapshot_eq_attempt bt e
  have hsucc : ∀ r rows, x = Except.ok (r, rows) → r.success = false := by
    intro r rows hxe
    rcases hx with hx | ⟨p, hx⟩
    · subst hx
      rcases performFullBackup_cases e with he | he | ⟨r2, he, hr2⟩ |
        ⟨r2, row, he, _, hv, _, _, _, _⟩
      · rw [he] at hxe; cases hxe
      · rw [he] at hxe; cases hxe
      · rw [he] at hxe
        cases hxe
        exact hr2
      · rw [hv] at h; cases h
    · subst hx
      rcases performIncrementalBackup_cases e p with he | he | ⟨r2, he, hr2⟩ |
        ⟨r2, row, he, _, hv, _, _, _, _⟩
      · rw [he] at hxe; cases hxe
      · rw [he] at hxe; cases hxe
      · rw [he] at hxe
        cases hxe
        exact hr2
      · rw [hv] at h; cases h
  cases x with
  | error msg => rw [hb]
  | ok r =>
    rw [hb]
    exact hsucc r.1 r.2 rfl

/-- A ledger-write failure fails the subvolume. -/
lemma backupSnapshot_ledger_fail (bt : BackupType) (e : SubvolEnv)
    (hl : e.ledgerWriteOk = false) :
    (backupSnapshot bt e).1.success = false := by
  obtain ⟨x, hx, hb⟩ := backupSnapshot_eq_attempt bt e
  have hsucc : ∀ r rows, x = Except.ok (r, rows) → r.success = false := by
    intro r rows hxe
    rcases hx with hx | ⟨p, hx⟩
    · subst hx
      rcases performFullBackup_cases e with he | he | ⟨r2, he, hr2⟩ |
        ⟨r2, row, he, _, _, hl2, _, _, _⟩
      · rw [he] at hxe; cases hxe
      · rw [he] at hxe; cases hxe
      · rw [he] at hxe
        cases hxe
        exact hr2
      · rw [hl2] at hl; cases hl
    · subst hx
      rcases performIncrementalBackup_cases e p with he | he | ⟨r2, he, hr2⟩ |
        ⟨r2, row, he, _, _, hl2, _, _, _⟩
      · rw [he] at hxe; cases hxe
      · rw [he] at hxe; cases hxe
      · rw [he] at hxe
        cases hxe
        exact hr2
      · rw [hl2] at hl; cases hl
  cases x with
  | error msg => rw [hb]
  | ok r =>
    rw [hb]
    exact hsucc r.1 r.2 rfl

/-! Lemmas about the per-subvolume loop of perform_backup. -/

lemma anyBelow_iff (n : Nat) (f : Nat → Bool) :
    anyBelow n f = true ↔ ∃ j, j < n ∧ f j = true := by
  induction n with
  | zero => simp [anyBelow]
  | succ k ih =>
    constructor
    · intro h
      rw [anyBelow, Bool.or_eq_true] at h
      rcases h with h | h
      · obtain ⟨j, hj, hf⟩ := ih.mp h
        exact ⟨j, Nat.lt_succ_of_lt hj, hf⟩
      · exact ⟨k, Nat.lt_succ_self k, h⟩
    · rintro ⟨j, hj, hf⟩
      rw [anyBelow, Bool.or_eq_true]
      rcases Nat.lt_succ_iff_lt_or_eq.mp hj with hj | hj
      · exact Or.inl (ih.mpr ⟨j, hj, hf⟩)
      · subst hj
        exact Or.inr hf

lemma runSubvols_cancelled (cancel : Nat → Bool) (bt : BackupType) :
    ∀ (l : List SubvolEnv) (i : Nat),
      (∃ j, j < l.length ∧ cancel (2 + i + j) = true) →
      (runSubvols cancel bt i l).1 = none := by
  intro l
  induction l with
  | nil =>
    rintro i ⟨j, hj, _⟩
    cases hj
  | cons e rest ih =>
    rintro i ⟨j, hj, hc⟩
    cases hcc : cancel (2 + i)
    · have hj0 : j ≠ 0 := by
        intro h
        subst h
        rw [Nat.add_zero] at hc
        rw [hc] at hcc
        cases hcc
      obtain ⟨j2, rfl⟩ := Nat.exists_eq_succ_of_ne_zero hj0
      have harith : 2 + i + (j2 + 1) = 2 + (i + 1) + j2 := by omega
      rw [harith] at hc
      have hrest := ih (i + 1)
        ⟨j2, by simpa using Nat.lt_of_succ_lt_succ hj, hc⟩
      simp [runSubvols, hcc, hrest]
    · simp [runSubvols, hcc]

lemma runSubvols_complete (cancel : Nat → Bool) (bt : BackupType) :
    ∀ (l : List SubvolEnv) (i : Nat),
      (∀ j, j < l.length → cancel (2 + i + j) = false) →
      (runSubvols cancel bt i l).1 =
        some (l.map (fun e => (backupSnapshot bt e).1)) := by
  intro l
  induction l with
  | nil => intro i _; rfl
  | cons e rest ih =>
    intro i h
    have hcc : cancel (2 + i) = false := by
      have := h 0 (Nat.succ_pos _)
      simpa using this
    have hrest := ih (i + 1) (by
      intro j hj
      have harith : 2 + (i + 1) + j = 2 + i + (j + 1) := by omega
      rw [harith]
      exact h (j + 1) (Nat.succ_lt_succ hj))
    simp [runSubvols, hcc, hrest]

/-! Claim theorems. -/

/-- C1 counterexample: a run that observes the cancel flag at the first state
boundary ends with aggregate status failed, not cancelled; perform_backup's
generic exception handler turns the cancel exception into status failed. -/
theorem cancel_status_counterexample :
    cancelObserved envC1 = true ∧
    (performBackup envC1).status = BackupStatus.failed ∧
    (performBackup envC1).status ≠ BackupStatus.cancelled := by
  refine ⟨rfl, rfl, ?_⟩
  decide

/-- C1 (amended): whenever the cancel flag is observed set at a state boundary
(after orphan cleanup, after snapshot creation, or between per-subvolume
iterations), perform_backup ends the run with aggregate status failed and the
error message of the cancel exception. -/
theorem run_cancel_sets_failed (env : RunEnv) (h : cancelObserved env = true) :
    (performBackup env).status = BackupStatus.failed ∧
    (performBackup env).errorMessage = some cancelMsg := by
  unfold cancelObserved at h
  cases h0 : env.cancel 0 with
  | true => constructor <;> simp [performBackup, h0]
  | false =>
    rw [h0, Bool.false_or, Bool.and_eq_true] at h
    obtain ⟨hs, hrest⟩ := h
    cases h1 : env.cancel 1 with
    | true => constructor <;> simp [performBackup, h0, hs, h1]
    | false =>
      rw [h1, Bool.false_or] at hrest
      obtain ⟨j, hj, hc⟩ := (anyBelow_iff _ _).mp hrest
      have hnone := runSubvols_cancelled env.cancel
        (runBackupType env.explicitType env.forceFull env.dayOfMonth env.sentCount)
        env.subvols 0 ⟨j, hj, hc⟩
      rcases hrs : runSubvols env.cancel
          (runBackupType env.explicitType env.forceFull env.dayOfMonth env.sentCount)
          0 env.subvols with ⟨o, rows⟩
      rw [hrs] at hnone
      simp only at hnone
      subst hnone
      constructor <;> simp [performBackup, h0, hs, h1, hrs]

/-- C1 witness: the amended theorem applied to the concrete cancelled run. -/
theorem run_cancel_sets_failed_witness :
    (performBackup envC1).status = BackupStatus.failed ∧
    (performBackup envC1).errorMessage = some cancelMsg :=
  run_cancel_sets_failed envC1 (by decide)

/-- C2 counterexample: a run whose first subvolume succeeds and whose second
subvolume fails only in the ledger write ends with aggregate status partial,
not failed — the ledger-write failure is not fatal for the run. -/
theorem ledger_write_failure_run_counterexample :
    ledgerFailEnv.ledgerWriteOk = false ∧
    (performBackup envC2).status = BackupStatus.part ∧
    (performBackup envC2).status ≠ BackupStatus.failed ∧
    (performBackup envC2).ledgerRows.length = 1 := by
  refine ⟨rfl, rfl, ?_, rfl⟩
  decide

/-- C2 (amended): when writing the sent-ledger row fails after a verified
upload, that subvolume is reported failed and no ledger row is written for it
(the uploaded artifact is left as an orphan); the run is not aborted, and the
aggregate status follows the normal aggregation rule. -/
theorem ledger_write_failure_per_subvolume (bt : BackupType) (e : SubvolEnv)
    (_hv : verifyRemoteFile e.remoteExists e.remoteSize e.fileSize = true)
    (hl : e.ledgerWriteOk = false) :
    (backupSnapshot bt e).1.success = false ∧ (backupSnapshot bt e).2 = [] := by
  have hf := backupSnapshot_ledger_fail bt e hl
  exact ⟨hf, (backupSnapshot_rows bt e).1 hf⟩

/-- C2 witness: the amended theorem applied to the concrete
ledger-write-failure environment. -/
theorem ledger_write_failure_per_subvolume_witness :
    (backupSnapshot BackupType.full ledgerFailEnv).1.success = false ∧
    (backupSnapshot BackupType.full ledgerFailEnv).2 = [] :=
  ledger_write_failure_per_subvolume BackupType.full ledgerFailEnv
    (by decide) (by decide)

/-- C3: if the post-transfer size verification does not match, the subvolume
is reported failed and no sent-ledger row is written for it; if the subvolume
succeeds, exactly one sent-ledger row is written, keyed by its snapshot
path. -/
theorem verify_gates_ledger_rows (bt : BackupType) (e : SubvolEnv) :
    ((e.remoteExists = false ∨ ¬ e.remoteSize = e.fileSize) →
      (backupSnapshot bt e).1.success = false ∧ (backupSnapshot bt e).2 = []) ∧
    ((backupSnapshot bt e).1.success = true →
      ∃ row, (backupSnapshot bt e).2 = [row] ∧
        row.snapshotPath = e.snapshotPath) := by
  constructor
  · intro h
    have hf := backupSnapshot_mismatch bt e (verifyRemoteFile_eq_false e h)
    exact ⟨hf, (backupSnapshot_rows bt e).1 hf⟩
  · exact (backupSnapshot_rows bt e).2

/-- C3 witness: a size mismatch yields a failure with no row; a fully
successful subvolume yields exactly one row for its snapshot. -/
theorem verify_gates_ledger_rows_witness :
    ((backupSnapshot BackupType.full mismatchEnv).1.success = false ∧
      (backupSnapshot BackupType.full mismatchEnv).2 = []) ∧
    (∃ row, (backupSnapshot BackupType.full okEnv).2 = [row] ∧
      row.snapshotPath = okEnv.snapshotPath) :=
  ⟨(verify_gates_ledger_rows BackupType.full mismatchEnv).1 (Or.inr (by decide)),
   (verify_gates_ledger_rows BackupType.full okEnv).2 (by decide)⟩

/-- C5 counterexample: a caller that passes an explicit incremental
backup_type while forcing full, on day 1, with an empty sent-ledger, gets an
incremental run — the explicit type bypasses the decision rule. -/
theorem kind_decision_counterexample :
    envC5.forceFull = true ∧ envC5.dayOfMonth = 1 ∧ envC5.sentCount = 0 ∧
    (performBackup envC5).backupType = BackupType.incremental ∧
    BackupType.incremental ≠ BackupType.full := by
  refine ⟨rfl, rfl, rfl, rfl, ?_⟩
  decide

/-- C5 (amended): when the caller passes no explicit backup_type, the run is
full exactly when full was forced, the calendar day is 1, or the sent-ledger
is empty (otherwise incremental); and a subvolume for which
find_parent_snapshot returns no sent parent is backed up exactly as a full
backup. -/
theorem kind_decision_and_fallback (ff : Bool) (day cnt : Nat) (e : SubvolEnv) :
    (runBackupType none ff day cnt = BackupType.full ↔
      (ff = true ∨ day = 1 ∨ cnt = 0)) ∧
    (findParentSnapshot e.dirEntries e.subvolume e.sentPaths = none →
      backupSnapshot BackupType.incremental e =
        backupSnapshot BackupType.full e) := by
  constructor
  · unfold runBackupType determineBackupType
    by_cases hff : ff = true
    · simp [hff]
    · by_cases hd : day = 1
      · simp [hff, hd]
      · by_cases hc : cnt = 0
        · simp [hff, hd, hc]
        · have hpos : 0 < cnt := Nat.pos_of_ne_zero hc
          simp [hff, hd, hc, hpos]
  · intro h
    simp [backupSnapshot, h]

/-- C5 witness: forced full on a mid-month day decides full, and the
no-parent fall-back behaves as a full backup on the concrete environment. -/
theorem kind_decision_and_fallback_witness :
    runBackupType none true 15 5 = BackupType.full ∧
    backupSnapshot BackupType.incremental okEnv =
      backupSnapshot BackupType.full okEnv :=
  ⟨(kind_decision_and_fallback true 15 5 okEnv).1.mpr (Or.inl rfl),
   (kind_decision_and_fallback true 15 5 okEnv).2 (by decide)⟩

/-- C6: a run that creates its snapshots and never observes the cancel flag
produces one result per configured subvolume (a failing subvolume does not
abort the run), and the aggregate status is success when all subvolumes
succeeded, partial when at least one but not all succeeded, and failed when
none succeeded. -/
theorem run_aggregation (env : RunEnv) (hc : cancelObserved env = false)
    (hs : env.snapshotsOk = true) (hne : env.subvols ≠ []) :
    (performBackup env).subvolumeResults.length = env.subvols.length ∧
    ((performBackup env).subvolumeResults.all (fun r => r.success) = true →
      (performBackup env).status = BackupStatus.success) ∧
    ((performBackup env).subvolumeResults.any (fun r => r.success) = true →
      (performBackup env).subvolumeResults.all (fun r => r.success) = false →
      (performBackup env).status = BackupStatus.part) ∧
    ((performBackup env).subvolumeResults.any (fun r => r.success) = false →
      (performBackup env).status = BackupStatus.failed) := by
  unfold cancelObserved at hc
  rw [Bool.or_eq_false_iff] at hc
  obtain ⟨h0, hrest⟩ := hc
  rw [hs, Bool.true_and, Bool.or_eq_false_iff] at hrest
  obtain ⟨h1, hany⟩ := hrest
  have hall : ∀ j, j < env.subvols.length → env.cancel (2 + j) = false := by
    intro j hj
    cases hcj : env.cancel (2 + j)
    · rfl
    · exfalso
      have hmem := (anyBelow_iff env.subvols.length
        (fun j => env.cancel (2 + j))).mpr ⟨j, hj, by simpa using hcj⟩
      rw [hany] at hmem
      cases hmem
  have hcomplete := runSubvols_complete env.cancel
    (runBackupType env.explicitType env.forceFull env.dayOfMonth env.sentCount)
    env.subvols 0 hall
  rcases hrs : runSubvols env.cancel
      (runBackupType env.explicitType env.forceFull env.dayOfMonth env.sentCount)
      0 env.subvols with ⟨o, rows⟩
  rw [hrs] at hcomplete
  simp only at hcomplete
  subst hcomplete
  have hst : (performBackup env).status =
      aggregate (env.subvols.map
        (fun e => (backupSnapshot (runBackupType env.explicitType env.forceFull
          env.dayOfMonth env.sentCount) e).1)) := by
    simp [performBackup, h0, hs, h1, hrs]
  have hsub : (performBackup env).subvolumeResults =
      env.subvols.map
        (fun e => (backupSnapshot (runBackupType env.explicitType env.forceFull
          env.dayOfMonth env.sentCount) e).1) := by
    simp [performBackup, h0, hs, h1, hrs]
  refine ⟨by rw [hsub]; simp, ?_, ?_, ?_⟩
  · intro hAll
    rw [hsub] at hAll
    rw [hst]
    simp [aggregate, hAll]
  · intro hAny hAll
    rw [hsub] at hAny hAll
    rw [hst]
    simp [aggregate, hAny, hAll]
  · intro hAny
    rw [hsub] at hAny
    rw [hst]
    cases hsv : env.subvols with
    | nil => exact absurd hsv hne
    | cons a rest =>
      rw [hsv] at hAny
      rw [List.map_cons, List.any_cons, Bool.or_eq_false_iff] at hAny
      simp [aggregate, hAny.1, hAny.2]

/-- C6 witness: a run whose first subvolume fails in transfer and whose
second succeeds still attempts both and aggregates to partial. -/
theorem run_aggregation_witness :
    (performBackup envC6).subvolumeResults.length = 2 ∧
    (performBackup envC6).status = BackupStatus.part := by
  have h := run_aggregation envC6 (by decide) (by decide)
    (List.cons_ne_nil _ _)
  exact ⟨h.1.trans (by decide), h.2.2.1 (by decide) (by decide)⟩

/-! Concrete data for the cleanup claims. -/

/-- A stale remote artifact absent from the ledger. -/
def orphanFile : RemoteFile :=
  { path := "/mnt/backups/host/202501/full/stale.btrfs.gpg",
    statOk := true, mtime := 0 }

/-- An old local snapshot that is recorded as sent. -/
def snapA : LocalSnapshot := { name := "@_20240101_000000", ctime := 0 }

/-- A sent-ledger path list recording snapA. -/
def sentC7 : List String := ["@_20240101_000000"]

/-- An incremental ledger row from a previous month with an old sent_at. -/
def oldIncRow : SentSnapshot :=
  { snapshotPath := "/snap/@_20240110_000000",
    remotePath := "/mnt/backups/host/202401/incremental/@_20240110_incremental.btrfs.gpg",
    sentAt := 0, sizeBytes := 10, backupType := BackupType.incremental,
    parentSnapshot := some "/snap/@_20240101_000000" }

/-- A current-month incremental artifact older than the retention window. -/
def freshIncArtifact : RemoteArtifact :=
  { dir := "/mnt/backups/host/202510/incremental",
    name := "@_20251001_incremental.btrfs.gpg", ageDays := 9 }

/-- A ledger row in a retained month. -/
def rowKeep : SentSnapshot :=
  { snapshotPath := "/snap/@_20250301_000000",
    remotePath := "/mnt/backups/host/202503/full/@_20250301_full.btrfs.gpg",
    sentAt := 5, sizeBytes := 10, backupType := BackupType.full,
    parentSnapshot := none }

/-- A ledger row in the oldest month. -/
def rowOld : SentSnapshot :=
  { snapshotPath := "/snap/@_20250101_000000",
    remotePath := "/mnt/backups/host/202501/full/@_20250101_full.btrfs.gpg",
    sentAt := 1, sizeBytes := 10, backupType := BackupType.full,
    parentSnapshot := none }

/-- Three remote month directories, newest first. -/
def monthsC10 : List String := ["202503", "202502", "202501"]

/-- A backup in progress occupying the current_backup slot. -/
def progressBusy : BackupProgressM :=
  { currentStep := "Creating snapshots", totalSteps := 7,
    currentStepNum := 3, percentage := 30 }

/-- C4: the orphan sweep performs a deletion only on a file whose path is
absent from the sent-ledger, whose remote stat succeeded, and whose
modification time is more than one hour in the past; ledger-referenced or
young artifacts are never deleted. -/
theorem orphan_sweep_safety (now : Int) (sent : List String)
    (files : List RemoteFile) (f : RemoteFile)
    (h : f ∈ cleanupFailedUploads now sent files) :
    sent.contains f.path = false ∧ f.statOk = true ∧ now - f.mtime > 3600 := by
  unfold cleanupFailedUploads at h
  rw [List.mem_filter] at h
  obtain ⟨h1, h2⟩ := h
  rw [List.mem_filter] at h1
  obtain ⟨_, horphan⟩ := h1
  rw [Bool.and_eq_true] at h2
  exact ⟨by simpa using horphan, h2.1, of_decide_eq_true h2.2⟩

/-- C4 witness: the sweep theorem applied to a concrete deleted orphan. -/
theorem orphan_sweep_safety_witness :
    ([] : List String).contains orphanFile.path = false ∧
    orphanFile.statOk = true ∧ (10000 : Int) - orphanFile.mtime > 3600 :=
  orphan_sweep_safety 10000 [] [orphanFile] orphanFile (by decide)

/-- C7 counterexample: aging deletes a snapshot that is recorded as sent and
is the only snapshot of its subvolume, so no newer sent predecessor exists
and the unsent-double-window disjunct does not apply either — the claimed
invariant fails. -/
theorem snapshot_aging_counterexample :
    snapA ∈ cleanupOldSnapshots 864000 7 sentC7 [snapA] ∧
    sentC7.contains snapA.name = true ∧
    ¬ ((∃ t, t ∈ [snapA] ∧ t.name ≠ snapA.name ∧
          subvolOf t.name = subvolOf snapA.name ∧ snapA.name < t.name ∧
          sentC7.contains t.name = true) ∨
       (sentC7.contains snapA.name = false ∧
         snapA.ctime < 864000 - (7 : Int) * 2 * 86400)) := by
  refine ⟨by decide, rfl, ?_⟩
  decide

/-- C7 (amended): cleanup_old_snapshots deletes a snapshot only when it is
recorded as sent and older than the retention window, or not recorded as
sent and older than double the retention window; it may delete the
most-recent sent predecessor of a subvolume. -/
theorem snapshot_aging_deletion_rule (now : Int) (days : Nat)
    (sent : List String) (entries : List LocalSnapshot) (s : LocalSnapshot)
    (h : s ∈ cleanupOldSnapshots now days sent entries) :
    (sent.contains s.name = true ∧ s.ctime < now - (days : Int) * 86400) ∨
    (sent.contains s.name = false ∧
      s.ctime < now - (days : Int) * 2 * 86400) := by
  unfold cleanupOldSnapshots at h
  rw [List.mem_filter] at h
  obtain ⟨_, hcond⟩ := h
  rw [Bool.and_eq_true, Bool.and_eq_true] at hcond
  obtain ⟨⟨_, hcut⟩, hsent⟩ := hcond
  rw [Bool.or_eq_true] at hsent
  rcases hsent with hsent | hdouble
  · exact Or.inl ⟨hsent, of_decide_eq_true hcut⟩
  · cases hcp : sent.contains s.name
    · exact Or.inr ⟨rfl, of_decide_eq_true hdouble⟩
    · exact Or.inl ⟨rfl, of_decide_eq_true hcut⟩

/-- C7 witness: the amended rule applied to the concrete deleted snapshot. -/
theorem snapshot_aging_deletion_rule_witness :
    (sentC7.contains snapA.name = true ∧
      snapA.ctime < 864000 - (7 : Int) * 86400) ∨
    (sentC7.contains snapA.name = false ∧
      snapA.ctime < 864000 - (7 : Int) * 2 * 86400) :=
  snapshot_aging_deletion_rule 864000 7 sentC7 [snapA] snapA (by decide)

/-- C8 counterexample: the incremental purge removes a ledger row (an old
incremental from a previous month) although it deletes no artifact at all,
so the removed rows are not exactly those matching deleted artifacts. -/
theorem incremental_purge_counterexample :
    (cleanupOldIncrementalBackups "/mnt/backups" "host" "202510" 7 864000
      [] [oldIncRow]).1 = [] ∧
    (cleanupOldIncrementalBackups "/mnt/backups" "host" "202510" 7 864000
      [] [oldIncRow]).2 = [] := by
  constructor
  · rfl
  · decide

/-- C8 (amended): remote deletion is confined to the current month's
incremental directory and to artifacts older than daily_incremental_days
(so full artifacts, living in a different directory, are never touched);
the ledger rows removed are exactly the incremental rows whose sent_at is
older than the cutoff, regardless of month or of the set of deleted
artifacts. -/
theorem incremental_purge_behavior (basePath clientName currentMonth : String)
    (days : Nat) (now : Int) (files : List RemoteArtifact)
    (ledger : List SentSnapshot) :
    (∀ f ∈ (cleanupOldIncrementalBackups basePath clientName currentMonth
        days now files ledger).1,
      f.dir = basePath ++ "/" ++ clientName ++ "/" ++ currentMonth ++
        "/incremental" ∧ f.ageDays > days) ∧
    (∀ r, r ∈ (cleanupOldIncrementalBackups basePath clientName currentMonth
        days now files ledger).2 ↔
      (r ∈ ledger ∧ ¬(r.backupType = BackupType.incremental ∧
        r.sentAt < now - (days : Int) * 86400))) := by
  constructor
  · intro f hf
    unfold cleanupOldIncrementalBackups at hf
    rw [List.mem_filter] at hf
    obtain ⟨_, hcond⟩ := hf
    rw [Bool.and_eq_true, Bool.and_eq_true] at hcond
    exact ⟨by simpa using hcond.1.1, of_decide_eq_true hcond.2⟩
  · intro r
    unfold cleanupOldIncrementalBackups
    rw [List.mem_filter]
    constructor
    · rintro ⟨hmem, hcond⟩
      refine ⟨hmem, ?_⟩
      rintro ⟨hbt, hsent⟩
      simp only [hbt, beq_self_eq_true, Bool.true_and, Bool.not_eq_true',
        decide_eq_false_iff_not] at hcond
      exact hcond hsent
    · rintro ⟨hmem, hni⟩
      refine ⟨hmem, ?_⟩
      by_cases hbt : r.backupType = BackupType.incremental
      · by_cases hlt : r.sentAt < now - (days : Int) * 86400
        · exact absurd ⟨hbt, hlt⟩ hni
        · simp [hbt, hlt]
      · simp [hbt]

/-- C8 witness: the amended theorem applied to a concrete deleted artifact
and a concrete row kept or removed by the sent_at rule. -/
theorem incremental_purge_behavior_witness :
    (freshIncArtifact.dir = "/mnt/backups" ++ "/" ++ "host" ++ "/" ++
      "202510" ++ "/incremental" ∧ freshIncArtifact.ageDays > 7) ∧
    (oldIncRow ∈ (cleanupOldIncrementalBackups "/mnt/backups" "host"
        "202510" 7 864000 [freshIncArtifact] [oldIncRow]).2 ↔
      (oldIncRow ∈ [oldIncRow] ∧ ¬(oldIncRow.backupType =
        BackupType.incremental ∧
        oldIncRow.sentAt < 864000 - (7 : Int) * 86400))) := by
  have heq : (cleanupOldIncrementalBackups "/mnt/backups" "host" "202510" 7
      864000 [freshIncArtifact] [oldIncRow]).1 = [freshIncArtifact] := by
    decide
  refine ⟨(incremental_purge_behavior "/mnt/backups" "host" "202510" 7 864000
      [freshIncArtifact] [oldIncRow]).1 freshIncArtifact ?_,
    (incremental_purge_behavior "/mnt/backups" "host" "202510" 7 864000
      [freshIncArtifact] [oldIncRow]).2 oldIncRow⟩
  rw [heq]
  exact List.mem_singleton.mpr rfl

/-- C9: a start request made while the current_backup slot is occupied is
answered with HTTP 409 and schedules no background run — the request is
rejected, not queued. -/
theorem busy_start_rejected (cur : Option BackupProgressM)
    (p : BackupProgressM) (h : cur = some p) :
    (startBackup cur).httpStatus = 409 ∧
    (startBackup cur).scheduledTasks = [] := by
  subst h
  exact ⟨rfl, rfl⟩

/-- C9 witness: the busy rejection on a concrete in-progress state. -/
theorem busy_start_rejected_witness :
    (startBackup (some progressBusy)).httpStatus = 409 ∧
    (startBackup (some progressBusy)).scheduledTasks = [] :=
  busy_start_rejected (some progressBusy) progressBusy rfl

/-! Fold lemmas for the monthly purge. -/

lemma foldl_monthlyStep_fst (base : String) (rmOk : String → Bool) :
    ∀ (ms : List String) (l : List SentSnapshot) (d : List String),
      (ms.foldl (monthlyStep base rmOk) (l, d)).1 =
        ms.foldl (fun l2 m =>
          l2.filter (fun r => !(strStarts r.remotePath (base ++ "/" ++ m)))) l := by
  intro ms
  induction ms with
  | nil => intro l d; rfl
  | cons m rest ih =>
    intro l d
    simp only [List.foldl_cons]
    exact ih _ _

lemma mem_fold_filter_subset (p : String → SentSnapshot → Bool) :
    ∀ (ms : List String) (l : List SentSnapshot) (r : SentSnapshot),
      r ∈ ms.foldl (fun l2 m => l2.filter (p m)) l → r ∈ l := by
  intro ms
  induction ms with
  | nil => intro l r h; exact h
  | cons m rest ih =>
    intro l r h
    rw [List.foldl_cons] at h
    have := ih _ r h
    exact (List.mem_filter.mp this).1

lemma mem_fold_filter_prop (p : String → SentSnapshot → Bool) :
    ∀ (ms : List String) (l : List SentSnapshot) (r : SentSnapshot)
      (m : String), m ∈ ms →
      r ∈ ms.foldl (fun l2 m2 => l2.filter (p m2)) l → p m r = true := by
  intro ms
  induction ms with
  | nil =>
    intro l r m hm
    cases hm
  | cons m0 rest ih =>
    intro l r m hm h
    rw [List.foldl_cons] at h
    rcases List.mem_cons.mp hm with hm | hm
    · subst hm
      have hmem := mem_fold_filter_subset p rest _ r h
      exact (List.mem_filter.mp hmem).2
    · exact ih _ r m hm h

/-- C10: for every month pruned by the monthly purge, no row of the final
ledger lies under that month's directory, and the final ledger does not
depend on whether the remote directory removals succeeded — rows are deleted
before the removal is attempted and stay deleted when it fails. -/
theorem monthly_purge_ledger_first (basePath clientName : String) (keep : Nat)
    (months : List String) (rmOk : String → Bool) (ledger : List SentSnapshot)
    (m : String) (r : SentSnapshot)
    (hm : m ∈ months.drop keep)
    (hr : r ∈ (cleanupOldMonthlyBackups basePath clientName keep months
      rmOk ledger).1) :
    strStarts r.remotePath
      (basePath ++ "/" ++ clientName ++ "/" ++ m) = false ∧
    (cleanupOldMonthlyBackups basePath clientName keep months rmOk ledger).1 =
      (cleanupOldMonthlyBackups basePath clientName keep months
        (fun _ => true) ledger).1 := by
  have hlen : months.length > keep := by
    by_contra hnot
    rw [Nat.not_lt] at hnot
    rw [List.drop_eq_nil_of_le hnot] at hm
    cases hm
  constructor
  · unfold cleanupOldMonthlyBackups at hr
    rw [if_pos hlen, foldl_monthlyStep_fst] at hr
    have hprop := mem_fold_filter_prop
      (fun m2 r2 => !(strStarts r2.remotePath
        (basePath ++ "/" ++ clientName ++ "/" ++ m2)))
      (months.drop keep) ledger r m hm hr
    simpa using hprop
  · unfold cleanupOldMonthlyBackups
    rw [if_pos hlen, if_pos hlen, foldl_monthlyStep_fst, foldl_monthlyStep_fst]

/-- C10 witness: pruning the oldest of three months removes its rows from
the ledger even when every remote rm fails, and a retained row is not under
the pruned month. -/
theorem monthly_purge_ledger_first_witness :
    strStarts rowKeep.remotePath
      ("/mnt/backups" ++ "/" ++ "host" ++ "/" ++ "202501") = false ∧
    (cleanupOldMonthlyBackups "/mnt/backups" "host" 2 monthsC10
      (fun _ => false) [rowKeep, rowOld]).1 =
      (cleanupOldMonthlyBackups "/mnt/backups" "host" 2 monthsC10
        (fun _ => true) [rowKeep, rowOld]).1 := by
  have hm : ("202501" : String) ∈ monthsC10.drop 2 :=
    List.mem_singleton.mpr rfl
  have heq : (cleanupOldMonthlyBackups "/mnt/backups" "host" 2 monthsC10
      (fun _ => false) [rowKeep, rowOld]).1 = [rowKeep] := by
    decide
  refine monthly_purge_ledger_first "/mnt/backups" "host" 2 monthsC10
    (fun _ => false) [rowKeep, rowOld] "202501" rowKeep hm ?_
  rw [heq]
  exact List.mem_singleton.mpr rfl

end Petalbyte
